import Mathlib

/-!
Verification of the reimbursement system: the hand-crafted Rule Engine
(`handcrafted_v2.py`) and the Blend Reconciler
(`calculate_reimbursement.py`), shallowly embedded over `ℚ`.

Modelling notes.
* Python floats are modelled as rationals; `round(x, 2)` is modelled by
  `round2`, i.e. rounding `100 * x` to the nearest integer and dividing
  by `100`.
* `math.log` is transcendental, hence not a rational function.  The base
  dampener `long_fac` only consults it for `days ≥ 8`; every statement
  below either fixes `days ≤ 7` (where the factor is `1`) or holds for an
  arbitrary logarithm model, so `long_fac` and everything downstream take
  the logarithm as an explicit function parameter `ln`.
* The random-forest regressor of the hybrid is an external artifact; the
  hybrid is modelled with the forest prediction as an opaque function
  parameter, exactly as the spec treats the PredictiveModelAdapter.
-/

/-- Rounding to two decimal places, the model of Python `round(x, 2)`. -/
def round2 (x : ℚ) : ℚ := (round (x * 100) : ℚ) / 100

namespace HC

/-! Constants table `C` of `handcrafted_v2.py`. -/

def C_BASE : ℚ := 97.2
def C_LONG_K : ℚ := 0.111

def C_M_DELTA : List ℚ := [-261, -25, 21, 254, 314]

def C_R12_LOW : ℚ := 0.60
def C_R12_HIGH : ℚ := 0.15
def C_R12_KNEE : ℚ := 1000
def C_R36_LOW : ℚ := 0.45
def C_R36_HIGH : ℚ := 0.15
def C_R36_KNEE : ℚ := 1000
def C_R7_BASE : ℚ := 0.45
def C_R7_SPILL : ℚ := 0.15
def C_R7_KNEE_PD : ℚ := 150
def C_R7_P0 : ℚ := 0.25
def C_R7_P_S : ℚ := 0.02

def C_FIVE_BONUS : ℚ := 79
def C_FIVE_CAP : ℚ := 1720
def C_WEEK_BONUS : ℚ := 280
def C_FORT_PEN : ℚ := -370

def C_EFF_PEAK : ℚ := 200
def C_EFF_WIDTH : ℚ := 260
def C_EFF_BONUS : ℚ := 80

def C_ONE_DAY_WARRIOR_BONUS : ℚ := 235
def C_LMILE_CAP_PD : ℚ := 900
def C_LMILE_PEN_RATE : ℚ := 0.90

def C_BUG : ℚ := 0.60

/-- Base dampener `long_fac` of `handcrafted_v2.py`; `ln` models
`math.log`. -/
def long_fac (ln : ℚ → ℚ) (d : ℕ) : ℚ :=
  if d ≤ 7 then 1 else max 0 (1 - C_LONG_K * ln ((d : ℚ) - 6))

/-- Mileage tiers `mile_delta` of `handcrafted_v2.py`: flat per-days
deltas for `miles ≤ 100`, otherwise first-breakpoint lookup over
`zip((100,300,600,1000), C_M_DELTA)` with the last delta as fallback. -/
def mile_delta (d : ℕ) (m : ℚ) : ℚ :=
  if m ≤ 100 then
    if d = 1 then 0
    else if d ≤ 3 then -150
    else if d ≤ 6 then -100
    else -50
  else
    match (List.zip [(100 : ℚ), 300, 600, 1000] C_M_DELTA).find?
        (fun p => decide (m ≤ p.1)) with
    | some p => p.2
    | none => C_M_DELTA.getLastD 0

/-- Receipts helper `rec_1_6` of `handcrafted_v2.py`. -/
def rec_1_6 (d : ℕ) (rec low hi knee_pd : ℚ) : ℚ :=
  let knee := knee_pd * d
  if rec ≤ knee then low * rec else low * knee + hi * (rec - knee)

/-- Long-trip receipts `rec_7_plus` of `handcrafted_v2.py`. -/
def rec_7_plus (d : ℕ) (rec : ℚ) : ℚ :=
  let knee := C_R7_KNEE_PD * d
  let base := C_R7_BASE * min rec knee
  let spill := C_R7_SPILL * max 0 (min (rec - knee) knee)
  let pen_rate := C_R7_P0 + C_R7_P_S * d
  let penalty := pen_rate * max 0 (rec - 2 * knee)
  base + spill - penalty

/-- Regime dispatch `rec_comp` of `handcrafted_v2.py`. -/
def rec_comp (d : ℕ) (rec : ℚ) : ℚ :=
  if d ≤ 2 then rec_1_6 d rec C_R12_LOW C_R12_HIGH C_R12_KNEE
  else if d ≤ 6 then rec_1_6 d rec C_R36_LOW C_R36_HIGH C_R36_KNEE
  else rec_7_plus d rec

/-- Efficiency parabola `eff_bonus` of `handcrafted_v2.py`. -/
def eff_bonus (d : ℕ) (m : ℚ) : ℚ :=
  let mpd := m / d
  let sc := 1 - ((mpd - C_EFF_PEAK) / C_EFF_WIDTH) ^ 2
  let peak : ℚ := if d ≤ 6 then 80 else C_EFF_BONUS
  let val := sc * peak
  if 7 ≤ d then val else max 0 val

/-- Week-parity rule `fortnight_adj` of `handcrafted_v2.py`. -/
def fortnight_adj (d : ℕ) (rpd : ℚ) : ℚ :=
  if 7 ≤ d ∧ d ≤ 8 ∧ 120 ≤ rpd ∧ rpd ≤ 180 then C_WEEK_BONUS
  else if 13 ≤ d ∧ d ≤ 14 ∧ 150 ≤ rpd ∧ rpd ≤ 200 then C_FORT_PEN
  else 0

/-- Clawback `low_mile_penalty` of `handcrafted_v2.py`. -/
def low_mile_penalty (d : ℕ) (m rec : ℚ) : ℚ :=
  if (d = 3 ∨ d = 4) ∧ m ≤ 100 then
    -(C_LMILE_PEN_RATE * max 0 (rec - C_LMILE_CAP_PD * d))
  else 0

/-- Detector `hits_bug` of `handcrafted_v2.py`:
`int(round(r*100)) % 100 in (49, 99)`. -/
def hits_bug (r : ℚ) : Bool :=
  (round (r * 100) % 100 == 49) || (round (r * 100) % 100 == 99)

/-- Running total of `calculate_reimbursement` in `handcrafted_v2.py`
just before the historic `.49/.99` bug multiplier step. -/
def pre_bug_total (ln : ℚ → ℚ) (d : ℕ) (m r : ℚ) : ℚ :=
  let total0 := C_BASE * d * long_fac ln d + mile_delta d m
    + rec_comp d r + eff_bonus d m
  let total1 := if d = 5 then min (total0 + C_FIVE_BONUS) C_FIVE_CAP else total0
  let total2 := if d = 1 ∧ 500 < m then total1 + C_ONE_DAY_WARRIOR_BONUS
    else total1
  let total3 := total2 + low_mile_penalty d m r
  total3 + fortnight_adj d (r / d)

/-- Main calculation `calculate_reimbursement` of `handcrafted_v2.py`. -/
def calculate_reimbursement (ln : ℚ → ℚ) (d : ℕ) (m r : ℚ) : ℚ :=
  round2 (if hits_bug r then pre_bug_total ln d m r * C_BUG
    else pre_bug_total ln d m r)

/-- Degenerate logarithm model, usable for any statement about trips of
at most seven days, where `long_fac` never consults it. -/
def ln0 : ℚ → ℚ := fun _ => 0

end HC

namespace Hybrid

/-- Blend step of `calculate_reimbursement` in
`calculate_reimbursement.py`: move 90 percent toward the forest estimate
when the two estimates differ by more than 100, then round. -/
def reconcile (h f : ℚ) : ℚ :=
  round2 (if 100 < |h - f| then h + 0.9 * (f - h) else h)

/-- Hybrid `calculate_reimbursement` of `calculate_reimbursement.py`,
with the forest prediction supplied as an opaque function. -/
def calculate_reimbursement (ln : ℚ → ℚ) (forest : ℕ → ℚ → ℚ → ℚ)
    (d : ℕ) (m r : ℚ) : ℚ :=
  reconcile (HC.calculate_reimbursement ln d m r) (forest d m r)

end Hybrid

/-! Helper lemmas about two-decimal rounding. -/

lemma round2_mono {x y : ℚ} (h : x ≤ y) : round2 x ≤ round2 y := by
  unfold round2
  have h1 : round (x * 100) ≤ round (y * 100) := by
    rw [round_eq, round_eq]
    exact Int.floor_mono (by linarith)
  have h2 : ((round (x * 100) : ℤ) : ℚ) ≤ ((round (y * 100) : ℤ) : ℚ) := by
    exact_mod_cast h1
  linarith

lemma round2_round2 (x : ℚ) : round2 (round2 x) = round2 x := by
  unfold round2
  rw [div_mul_cancel₀ _ (by norm_num : (100 : ℚ) ≠ 0), round_intCast]

lemma abs_round2_sub (x : ℚ) : |round2 x - x| ≤ 1 / 200 := by
  have h := abs_sub_round (x * 100)
  rw [abs_sub_comm] at h
  have h2 : round2 x - x = ((round (x * 100) : ℚ) - x * 100) / 100 := by
    unfold round2; ring
  rw [h2, abs_div, abs_of_pos (by norm_num : (0:ℚ) < 100)]
  linarith

/-! Helper lemma: closed form of the mileage breakpoint lookup above 100
miles.  The first zipped pair `(100, -261)` can never be selected there,
which is what makes the first delta of the table unreachable. -/

lemma mile_delta_of_gt_100 (d : ℕ) (m : ℚ) (hm : 100 < m) :
    HC.mile_delta d m =
      if m ≤ 300 then -25 else if m ≤ 600 then 21
      else if m ≤ 1000 then 254 else 314 := by
  have hm1 : ¬ m ≤ 100 := not_le.mpr hm
  unfold HC.mile_delta
  rw [if_neg hm1]
  have hz : List.zip [(100 : ℚ), 300, 600, 1000] HC.C_M_DELTA =
      [(100, -261), (300, -25), (600, 21), (1000, 254)] := by
    simp [HC.C_M_DELTA]
  rw [hz]
  by_cases h3 : m ≤ 300
  · simp [List.find?, hm1, h3]
  · by_cases h6 : m ≤ 600
    · simp [List.find?, hm1, h3, h6]
    · by_cases h10 : m ≤ 1000
      · simp [List.find?, hm1, h3, h6, h10]
      · simp [List.find?, HC.C_M_DELTA, hm1, h3, h6, h10]

/-! Helper lemma: monotonicity of the short and mid receipt curve in the
receipts argument, for nonnegative rates. -/

lemma rec_1_6_mono (d : ℕ) (r1 r2 low hi knee_pd : ℚ)
    (hlow : 0 ≤ low) (hhi : 0 ≤ hi) (h12 : r1 ≤ r2) :
    HC.rec_1_6 d r1 low hi knee_pd ≤ HC.rec_1_6 d r2 low hi knee_pd := by
  unfold HC.rec_1_6
  by_cases h1 : r1 ≤ knee_pd * d
  · by_cases h2 : r2 ≤ knee_pd * d
    · rw [if_pos h1, if_pos h2]
      exact mul_le_mul_of_nonneg_left h12 hlow
    · rw [if_pos h1, if_neg h2]
      have ha : low * r1 ≤ low * (knee_pd * d) := mul_le_mul_of_nonneg_left h1 hlow
      have hb : 0 ≤ hi * (r2 - knee_pd * d) :=
        mul_nonneg hhi (by push_neg at h2; linarith)
      linarith
  · have h2 : ¬ r2 ≤ knee_pd * d := by push_neg at h1 ⊢; linarith
    rw [if_neg h1, if_neg h2]
    have hc : hi * (r1 - knee_pd * d) ≤ hi * (r2 - knee_pd * d) :=
      mul_le_mul_of_nonneg_left (by linarith) hhi
    linarith

/-- Cross-check of the embedding against the spec's reference scenario
2: a one-day, 600-mile trip earns the road-warrior credit once. -/
example : HC.calculate_reimbursement HC.ln0 1 600 0 = 353.20 := by
  norm_num [HC.calculate_reimbursement, HC.pre_bug_total, HC.hits_bug,
    HC.long_fac, HC.ln0, HC.mile_delta, HC.rec_comp, HC.rec_1_6,
    HC.eff_bonus, HC.fortnight_adj, HC.low_mile_penalty, HC.C_BASE,
    HC.C_ONE_DAY_WARRIOR_BONUS, HC.C_EFF_PEAK, HC.C_EFF_WIDTH,
    HC.C_EFF_BONUS, HC.C_R12_LOW, HC.C_R12_HIGH, HC.C_R12_KNEE,
    HC.C_M_DELTA, HC.C_BUG, List.find?, round2,
    round_eq, min_def, max_def]

/-- C5: the Rule Engine applied to days = 5, miles = 0, receipts = 0
returns exactly 497.66, for any logarithm model (five-day trips never
consult it). -/
theorem C5_five_day_scenario (ln : ℚ → ℚ) :
    HC.calculate_reimbursement ln 5 0 0 = 497.66 := by
  norm_num [HC.calculate_reimbursement, HC.pre_bug_total, HC.hits_bug,
    HC.long_fac, HC.mile_delta, HC.rec_comp, HC.rec_1_6,
    HC.eff_bonus, HC.fortnight_adj, HC.low_mile_penalty, HC.C_BASE,
    HC.C_FIVE_BONUS, HC.C_FIVE_CAP, HC.C_EFF_PEAK, HC.C_EFF_WIDTH,
    HC.C_EFF_BONUS, HC.C_R12_LOW, HC.C_R12_HIGH, HC.C_R12_KNEE,
    HC.C_R36_LOW, HC.C_R36_HIGH, HC.C_R36_KNEE, HC.C_BUG, round2,
    round_eq, min_def, max_def]

/-- C6 counterexample: the Rule Engine applied to days = 2, miles = 50,
receipts = 49.49 does not return 70.69, contrary to the claimed expected
value. -/
theorem C6_counterexample :
    HC.calculate_reimbursement HC.ln0 2 50 49.49 ≠ 70.69 := by
  norm_num [HC.calculate_reimbursement, HC.pre_bug_total, HC.hits_bug,
    HC.long_fac, HC.ln0, HC.mile_delta, HC.rec_comp, HC.rec_1_6,
    HC.eff_bonus, HC.fortnight_adj, HC.low_mile_penalty, HC.C_BASE,
    HC.C_FIVE_BONUS, HC.C_FIVE_CAP, HC.C_EFF_PEAK, HC.C_EFF_WIDTH,
    HC.C_EFF_BONUS, HC.C_R12_LOW, HC.C_R12_HIGH, HC.C_R12_KNEE,
    HC.C_R36_LOW, HC.C_R36_HIGH, HC.C_R36_KNEE, HC.C_BUG, round2,
    round_eq, min_def, max_def]

/-- C6 (amended): the Rule Engine applied to days = 2, miles = 50,
receipts = 49.49 returns exactly 70.71, with the bug multiplier applied,
for any logarithm model. -/
theorem C6_two_day_bug_scenario (ln : ℚ → ℚ) :
    HC.calculate_reimbursement ln 2 50 49.49 = 70.71 ∧
      HC.hits_bug 49.49 = true := by
  constructor
  · norm_num [HC.calculate_reimbursement, HC.pre_bug_total, HC.hits_bug,
      HC.long_fac, HC.mile_delta, HC.rec_comp, HC.rec_1_6,
      HC.eff_bonus, HC.fortnight_adj, HC.low_mile_penalty, HC.C_BASE,
      HC.C_FIVE_BONUS, HC.C_FIVE_CAP, HC.C_EFF_PEAK, HC.C_EFF_WIDTH,
      HC.C_EFF_BONUS, HC.C_R12_LOW, HC.C_R12_HIGH, HC.C_R12_KNEE,
      HC.C_R36_LOW, HC.C_R36_HIGH, HC.C_R36_KNEE, HC.C_BUG, round2,
      round_eq, min_def, max_def]
  · norm_num [HC.hits_bug, round_eq]

/-- C4: when the rule estimate and the model estimate agree within the
implemented threshold of 100, the hybrid returns the rule estimate
exactly (rule estimates are already two-decimal values, so the final
rounding is the identity on them). -/
theorem C4_blend_identity_at_agreement (ln : ℚ → ℚ)
    (forest : ℕ → ℚ → ℚ → ℚ) (d : ℕ) (m r : ℚ)
    (hth : |HC.calculate_reimbursement ln d m r - forest d m r| ≤ 100) :
    Hybrid.calculate_reimbursement ln forest d m r =
      HC.calculate_reimbursement ln d m r := by
  unfold Hybrid.calculate_reimbursement Hybrid.reconcile
  rw [if_neg (not_lt.mpr hth)]
  unfold HC.calculate_reimbursement
  exact round2_round2 _

/-- C4 witness at days = 1, miles = 0, receipts = 0 and a constant
forest prediction of 129.86. -/
theorem C4_witness :
    |HC.calculate_reimbursement HC.ln0 1 0 0 -
        (fun (_ : ℕ) (_ _ : ℚ) => (129.86 : ℚ)) 1 0 0| ≤ 100 ∧
      Hybrid.calculate_reimbursement HC.ln0
          (fun _ _ _ => 129.86) 1 0 0 =
        HC.calculate_reimbursement HC.ln0 1 0 0 :=
  ⟨by
    norm_num [HC.calculate_reimbursement, HC.pre_bug_total, HC.hits_bug,
      HC.long_fac, HC.ln0, HC.mile_delta, HC.rec_comp, HC.rec_1_6,
      HC.eff_bonus, HC.fortnight_adj, HC.low_mile_penalty, HC.C_BASE,
      HC.C_EFF_PEAK, HC.C_EFF_WIDTH, HC.C_EFF_BONUS, HC.C_R12_LOW,
      HC.C_R12_HIGH, HC.C_R12_KNEE, HC.C_BUG, round2, round_eq,
      min_def, max_def, abs_le],
   C4_blend_identity_at_agreement HC.ln0 (fun _ _ _ => 129.86) 1 0 0
    (by
      norm_num [HC.calculate_reimbursement, HC.pre_bug_total, HC.hits_bug,
        HC.long_fac, HC.ln0, HC.mile_delta, HC.rec_comp, HC.rec_1_6,
        HC.eff_bonus, HC.fortnight_adj, HC.low_mile_penalty, HC.C_BASE,
        HC.C_EFF_PEAK, HC.C_EFF_WIDTH, HC.C_EFF_BONUS, HC.C_R12_LOW,
        HC.C_R12_HIGH, HC.C_R12_KNEE, HC.C_BUG, round2, round_eq,
        min_def, max_def, abs_le])⟩

/-- C3: when the two estimates differ by more than the implemented
threshold of 100, the blended result lies strictly between them and is
closer to the model estimate than to the rule estimate. -/
theorem C3_blend_shift_direction (h f : ℚ) (hd : 100 < |h - f|) :
    (min h f < Hybrid.reconcile h f ∧ Hybrid.reconcile h f < max h f) ∧
      |Hybrid.reconcile h f - f| < |Hybrid.reconcile h f - h| := by
  have hx : Hybrid.reconcile h f = round2 (h + 0.9 * (f - h)) := by
    unfold Hybrid.reconcile
    rw [if_pos hd]
  have hb := abs_round2_sub (h + 0.9 * (f - h))
  rw [abs_le] at hb
  obtain ⟨hb1, hb2⟩ := hb
  rcases le_or_lt h f with hhf | hhf
  · have hD : 100 < f - h := by
      rwa [abs_sub_comm, abs_of_nonneg (by linarith)] at hd
    rw [hx, min_eq_left hhf, max_eq_right hhf]
    have hgt : h < round2 (h + 0.9 * (f - h)) := by linarith
    have hlt : round2 (h + 0.9 * (f - h)) < f := by linarith
    refine ⟨⟨hgt, hlt⟩, ?_⟩
    rw [abs_of_neg (by linarith : round2 (h + 0.9 * (f - h)) - f < 0),
      abs_of_pos (by linarith : 0 < round2 (h + 0.9 * (f - h)) - h)]
    linarith
  · have hD : 100 < h - f := by
      rwa [abs_of_pos (by linarith)] at hd
    rw [hx, min_eq_right (le_of_lt hhf), max_eq_left (le_of_lt hhf)]
    have hgt : f < round2 (h + 0.9 * (f - h)) := by linarith
    have hlt : round2 (h + 0.9 * (f - h)) < h := by linarith
    refine ⟨⟨hgt, hlt⟩, ?_⟩
    rw [abs_of_pos (by linarith : 0 < round2 (h + 0.9 * (f - h)) - f),
      abs_of_neg (by linarith : round2 (h + 0.9 * (f - h)) - h < 0)]
    linarith

/-- C3 witness at the spec scenario h = 500, f = 200. -/
theorem C3_witness :
    100 < |(500 : ℚ) - 200| ∧
      ((min (500 : ℚ) 200 < Hybrid.reconcile 500 200 ∧
          Hybrid.reconcile 500 200 < max (500 : ℚ) 200) ∧
        |Hybrid.reconcile 500 200 - 200| < |Hybrid.reconcile 500 200 - 500|) :=
  ⟨by norm_num, C3_blend_shift_direction 500 200 (by norm_num)⟩

/-- C1: for five-day trips the Rule Engine's output never exceeds the
configured cap of 1720, whatever the (nonnegative) miles and receipts:
after the bonus-then-clamp step, no later step of the special-case
sequence can push the total back above the cap. -/
theorem C1_five_day_cap (ln : ℚ → ℚ) (m r : ℚ) (hm : 0 ≤ m) (hr : 0 ≤ r) :
    HC.calculate_reimbursement ln 5 m r ≤ HC.C_FIVE_CAP := by
  have hlow : HC.low_mile_penalty 5 m r = 0 := by simp [HC.low_mile_penalty]
  have hfort : ∀ x : ℚ, HC.fortnight_adj 5 x = 0 := fun x => by
    norm_num [HC.fortnight_adj]
  have hpre : HC.pre_bug_total ln 5 m r ≤ 1720 := by
    simp only [HC.pre_bug_total, hlow, hfort, add_zero]
    norm_num [HC.C_FIVE_CAP]
  have hkey : ∀ x : ℚ, x ≤ 1720 → round2 x ≤ HC.C_FIVE_CAP := by
    intro x hx
    have hm2 : round2 x ≤ round2 1720 := round2_mono hx
    have h1720 : round2 (1720 : ℚ) = 1720 := by norm_num [round2, round_eq]
    rw [h1720] at hm2
    simpa [HC.C_FIVE_CAP] using hm2
  unfold HC.calculate_reimbursement
  by_cases hb : HC.hits_bug r = true
  · rw [if_pos hb]
    refine hkey _ ?_
    simp only [HC.C_BUG]
    norm_num
    linarith
  · rw [if_neg hb]
    exact hkey _ hpre

/-- C1 witness at miles = 0, receipts = 0. -/
theorem C1_witness :
    0 ≤ (0 : ℚ) ∧ HC.calculate_reimbursement HC.ln0 5 0 0 ≤ HC.C_FIVE_CAP :=
  ⟨le_refl 0, C1_five_day_cap HC.ln0 0 0 (le_refl 0) (le_refl 0)⟩

/-- C2: the Rule Engine multiplies the running total by the sub-unity
bug factor exactly when the receipts value, rounded to cents and taken
mod 100, equals 49 or 99 cents; receipts 49.49 triggers it and 49.50
does not. -/
theorem C2_bug_multiplier_condition (ln : ℚ → ℚ) (d : ℕ) (m r : ℚ)
    (hd : 1 ≤ d) (hm : 0 ≤ m) (hr : 0 ≤ r) :
    (HC.calculate_reimbursement ln d m r =
      if round (r * 100) % 100 = 49 ∨ round (r * 100) % 100 = 99 then
        round2 (HC.pre_bug_total ln d m r * HC.C_BUG)
      else round2 (HC.pre_bug_total ln d m r)) ∧
    HC.hits_bug 49.49 = true ∧ HC.hits_bug 49.50 = false := by
  refine ⟨?_, by norm_num [HC.hits_bug, round_eq],
    by norm_num [HC.hits_bug, round_eq]⟩
  by_cases hc : round (r * 100) % 100 = 49 ∨ round (r * 100) % 100 = 99
  · rw [if_pos hc]
    unfold HC.calculate_reimbursement
    rw [if_pos (by simpa [HC.hits_bug] using hc)]
  · rw [if_neg hc]
    unfold HC.calculate_reimbursement
    rw [if_neg (by simpa [HC.hits_bug] using hc)]

/-- C2 witness at days = 1, miles = 0, receipts = 0. -/
theorem C2_witness :
    (1 : ℕ) ≤ 1 ∧
      ((HC.calculate_reimbursement HC.ln0 1 0 0 =
        if round ((0 : ℚ) * 100) % 100 = 49 ∨
            round ((0 : ℚ) * 100) % 100 = 99 then
          round2 (HC.pre_bug_total HC.ln0 1 0 0 * HC.C_BUG)
        else round2 (HC.pre_bug_total HC.ln0 1 0 0)) ∧
      HC.hits_bug 49.49 = true ∧ HC.hits_bug 49.50 = false) :=
  ⟨le_refl 1,
    C2_bug_multiplier_condition HC.ln0 1 0 0 (le_refl 1) (le_refl 0)
      (le_refl 0)⟩

/-- Long-trip receipt component as the spec words it: base rate on
receipts up to the knee, spillover rate between the knee and twice the
knee, and a day-dependent penalty rate on anything beyond twice the
knee. -/
def spec_rec7_formula (d : ℕ) (rec : ℚ) : ℚ :=
  0.45 * min rec (150 * d) + 0.15 * max 0 (min (rec - 150 * d) (150 * d))
    - (0.25 + 0.02 * d) * max 0 (rec - 300 * d)

/-- C7: for trips of seven days or more the receipt component equals the
spec's three-term formula, and it can go strictly negative (no floor is
applied), e.g. at days = 7 with receipts = 10000. -/
theorem C7_long_trip_receipt_formula :
    (∀ (d : ℕ) (rec : ℚ), 7 ≤ d → 0 ≤ rec →
      HC.rec_comp d rec = spec_rec7_formula d rec) ∧
      HC.rec_comp 7 10000 < 0 := by
  constructor
  · intro d rec hd hrec
    have h2 : ¬ d ≤ 2 := by omega
    have h6 : ¬ d ≤ 6 := by omega
    simp only [HC.rec_comp, if_neg h2, if_neg h6, HC.rec_7_plus,
      spec_rec7_formula, HC.C_R7_BASE, HC.C_R7_SPILL, HC.C_R7_KNEE_PD,
      HC.C_R7_P0, HC.C_R7_P_S]
    rw [show (2 : ℚ) * (150 * (d : ℚ)) = 300 * d from by ring]
  · norm_num [HC.rec_comp, HC.rec_7_plus, HC.C_R7_BASE, HC.C_R7_SPILL,
      HC.C_R7_KNEE_PD, HC.C_R7_P0, HC.C_R7_P_S, min_def, max_def]

/-- C7 witness at days = 7, receipts = 100, and the concrete negative
case. -/
theorem C7_witness :
    (7 : ℕ) ≤ 7 ∧ HC.rec_comp 7 100 = spec_rec7_formula 7 100 ∧
      HC.rec_comp 7 10000 < 0 :=
  ⟨le_refl 7,
    C7_long_trip_receipt_formula.1 7 100 (le_refl 7) (by norm_num),
    C7_long_trip_receipt_formula.2⟩

/-- C8: the efficiency bonus is floored at zero for trips of one to six
days, while for seven-day-or-longer trips it can be strictly negative,
e.g. at days = 7, miles = 10000. -/
theorem C8_eff_bonus_sign :
    (∀ (d : ℕ) (m : ℚ), 1 ≤ d → d ≤ 6 → 0 ≤ m → 0 ≤ HC.eff_bonus d m) ∧
      HC.eff_bonus 7 10000 < 0 := by
  constructor
  · intro d m hd1 hd6 hm
    have h7 : ¬ 7 ≤ d := by omega
    simp only [HC.eff_bonus, if_neg h7]
    exact le_max_left 0 _
  · norm_num [HC.eff_bonus, HC.C_EFF_PEAK, HC.C_EFF_WIDTH, HC.C_EFF_BONUS]

/-- C8 witness at days = 1, miles = 0, and the concrete negative case. -/
theorem C8_witness :
    (1 : ℕ) ≤ 1 ∧ 0 ≤ HC.eff_bonus 1 0 ∧ HC.eff_bonus 7 10000 < 0 :=
  ⟨le_refl 1, C8_eff_bonus_sign.1 1 0 (le_refl 1) (by norm_num) (le_refl 0),
    C8_eff_bonus_sign.2⟩

/-- C9: the mileage tier adjustment never returns the first delta -261
of the table; above 100 miles the lookup can only produce -25, 21, 254
or 314 (and at or below 100 miles only the flat per-days deltas). -/
theorem C9_mile_delta_no_neg261 (d : ℕ) (m : ℚ) (hd : 1 ≤ d) (hm : 0 ≤ m) :
    HC.mile_delta d m ≠ -261 ∧
      (100 < m →
        HC.mile_delta d m = -25 ∨ HC.mile_delta d m = 21 ∨
          HC.mile_delta d m = 254 ∨ HC.mile_delta d m = 314) := by
  by_cases hm100 : m ≤ 100
  · constructor
    · unfold HC.mile_delta
      rw [if_pos hm100]
      split_ifs <;> norm_num
    · intro h
      exact absurd h (not_lt.mpr hm100)
  · push_neg at hm100
    rw [mile_delta_of_gt_100 d m hm100]
    constructor
    · split_ifs <;> norm_num
    · intro _
      split_ifs <;> norm_num

/-- C9 witness at days = 1, miles = 150. -/
theorem C9_witness :
    (1 : ℕ) ≤ 1 ∧
      (HC.mile_delta 1 150 ≠ -261 ∧
        (100 < (150 : ℚ) →
          HC.mile_delta 1 150 = -25 ∨ HC.mile_delta 1 150 = 21 ∨
            HC.mile_delta 1 150 = 254 ∨ HC.mile_delta 1 150 = 314)) :=
  ⟨le_refl 1, C9_mile_delta_no_neg261 1 150 (le_refl 1) (by norm_num)⟩

/-- C10: for trips of one to six days the receipt component is monotone
non-decreasing in the receipts amount. -/
theorem C10_short_mid_receipt_monotone (d : ℕ) (r1 r2 : ℚ)
    (hd1 : 1 ≤ d) (hd6 : d ≤ 6) (h0 : 0 ≤ r1) (h12 : r1 ≤ r2) :
    HC.rec_comp d r1 ≤ HC.rec_comp d r2 := by
  by_cases h2 : d ≤ 2
  · simp only [HC.rec_comp, if_pos h2]
    exact rec_1_6_mono d r1 r2 _ _ _ (by norm_num [HC.C_R12_LOW])
      (by norm_num [HC.C_R12_HIGH]) h12
  · simp only [HC.rec_comp, if_neg h2, if_pos hd6]
    exact rec_1_6_mono d r1 r2 _ _ _ (by norm_num [HC.C_R36_LOW])
      (by norm_num [HC.C_R36_HIGH]) h12

/-- C10 witness at days = 1, receipts 0 and 1. -/
theorem C10_witness :
    (1 : ℕ) ≤ 1 ∧ HC.rec_comp 1 0 ≤ HC.rec_comp 1 1 :=
  ⟨le_refl 1,
    C10_short_mid_receipt_monotone 1 0 1 (le_refl 1) (by norm_num)
      (le_refl 0) (by norm_num)⟩
